import Mathlib

/-!
Verification development for the `gameeapi` repository, a Python client
(`src/gameeapi/gamee_api_client.py`) for the Gamee JSON-RPC-over-HTTP API.
The client is embedded shallowly: pure request-building and checksum logic
becomes Lean functions; the network is modelled by passing the HTTP responses
(status plus JSON-parse outcome of the body) as explicit arguments; the
randomness of `random.randint` and the clock reading used for `createdTime`
are explicit parameters.  Machine-level operations used by the client's
dependencies (MD5 from `hashlib`, UTF-8 encoding, `urllib.parse.urlparse`)
are implemented over `Nat` byte lists, with `% 2^32` where MD5 overflows.
-/

namespace Gamee

/-! ## MD5 (model of Python `hashlib.md5(...).hexdigest()`)

RFC 1321 MD5 over a list of bytes (`Nat`s below 256), producing the
lowercase hexadecimal digest string, as `hashlib.md5(data).hexdigest()` does.
All 32-bit words are `Nat`s kept below `2^32` by explicit reduction. -/

def M32 : Nat := 4294967296

def rotl32 (x n : Nat) : Nat := ((x <<< n) % M32) ||| (x >>> (32 - n))

def md5F (b c d : Nat) : Nat := (b &&& c) ||| ((4294967295 ^^^ b) &&& d)

def md5G (b c d : Nat) : Nat := (d &&& b) ||| ((4294967295 ^^^ d) &&& c)

def md5H (b c d : Nat) : Nat := b ^^^ c ^^^ d

def md5I (b c d : Nat) : Nat := c ^^^ (b ||| (4294967295 ^^^ d))

def md5K : List Nat :=
  [0xd76aa478, 0xe8c7b756, 0x242070db, 0xc1bdceee,
   0xf57c0faf, 0x4787c62a, 0xa8304613, 0xfd469501,
   0x698098d8, 0x8b44f7af, 0xffff5bb1, 0x895cd7be,
   0x6b901122, 0xfd987193, 0xa679438e, 0x49b40821,
   0xf61e2562, 0xc040b340, 0x265e5a51, 0xe9b6c7aa,
   0xd62f105d, 0x02441453, 0xd8a1e681, 0xe7d3fbc8,
   0x21e1cde6, 0xc33707d6, 0xf4d50d87, 0x455a14ed,
   0xa9e3e905, 0xfcefa3f8, 0x676f02d9, 0x8d2a4c8a,
   0xfffa3942, 0x8771f681, 0x6d9d6122, 0xfde5380c,
   0xa4beea44, 0x4bdecfa9, 0xf6bb4b60, 0xbebfbc70,
   0x289b7ec6, 0xeaa127fa, 0xd4ef3085, 0x04881d05,
   0xd9d4d039, 0xe6db99e5, 0x1fa27cf8, 0xc4ac5665,
   0xf4292244, 0x432aff97, 0xab9423a7, 0xfc93a039,
   0x655b59c3, 0x8f0ccc92, 0xffeff47d, 0x85845dd1,
   0x6fa87e4f, 0xfe2ce6e0, 0xa3014314, 0x4e0811a1,
   0xf7537e82, 0xbd3af235, 0x2ad7d2bb, 0xeb86d391]

def md5S : List Nat :=
  [7, 12, 17, 22, 7, 12, 17, 22, 7, 12, 17, 22, 7, 12, 17, 22,
   5, 9, 14, 20, 5, 9, 14, 20, 5, 9, 14, 20, 5, 9, 14, 20,
   4, 11, 16, 23, 4, 11, 16, 23, 4, 11, 16, 23, 4, 11, 16, 23,
   6, 10, 15, 21, 6, 10, 15, 21, 6, 10, 15, 21, 6, 10, 15, 21]

/-- Little-endian 32-bit word number `g` of a 64-byte block. -/
def leWord (block : List Nat) (g : Nat) : Nat :=
  block.getD (4 * g) 0 + 256 * block.getD (4 * g + 1) 0 +
    65536 * block.getD (4 * g + 2) 0 + 16777216 * block.getD (4 * g + 3) 0

def md5Round (block : List Nat) (st : Nat × Nat × Nat × Nat) (i : Nat) :
    Nat × Nat × Nat × Nat :=
  let (a, b, c, d) := st
  let fg : Nat × Nat :=
    if i < 16 then (md5F b c d, i)
    else if i < 32 then (md5G b c d, (5 * i + 1) % 16)
    else if i < 48 then (md5H b c d, (3 * i + 5) % 16)
    else (md5I b c d, (7 * i) % 16)
  let sum := (a + fg.1 + md5K.getD i 0 + leWord block fg.2) % M32
  (d, (b + rotl32 sum (md5S.getD i 0)) % M32, b, c)

def md5ProcessBlock (st : Nat × Nat × Nat × Nat) (block : List Nat) :
    Nat × Nat × Nat × Nat :=
  let r := (List.range 64).foldl (md5Round block) st
  ((st.1 + r.1) % M32, (st.2.1 + r.2.1) % M32,
   (st.2.2.1 + r.2.2.1) % M32, (st.2.2.2 + r.2.2.2) % M32)

/-- Process `fuel` 64-byte blocks of `l` (structural recursion on the block
count so that concrete digests reduce in the kernel). -/
def md5Blocks : Nat → Nat × Nat × Nat × Nat → List Nat → Nat × Nat × Nat × Nat
  | 0, st, _ => st
  | n + 1, st, l => md5Blocks n (md5ProcessBlock st (l.take 64)) (l.drop 64)

/-- MD5 padding: append `0x80`, zeros to 56 mod 64, then the 64-bit
little-endian bit length. -/
def md5Pad (ms : List Nat) : List Nat :=
  ms ++ 0x80 :: List.replicate ((119 - ms.length % 64) % 64) 0 ++
    (List.range 8).map (fun i => (((8 * ms.length) % 18446744073709551616) >>> (8 * i)) % 256)

def wordLEBytes (w : Nat) : List Nat :=
  [w % 256, (w >>> 8) % 256, (w >>> 16) % 256, (w >>> 24) % 256]

/-- The 16-byte MD5 digest of a byte list. -/
def md5bytes (ms : List Nat) : List Nat :=
  let padded := md5Pad ms
  let r := md5Blocks (padded.length / 64)
    (0x67452301, 0xefcdab89, 0x98badcfe, 0x10325476) padded
  wordLEBytes r.1 ++ wordLEBytes r.2.1 ++ wordLEBytes r.2.2.1 ++ wordLEBytes r.2.2.2

/-- Lowercase hexadecimal character for a value below 16. -/
def hexChar (n : Nat) : Char :=
  if n < 10 then Char.ofNat (48 + n) else Char.ofNat (87 + n)

/-- Lowercase hexadecimal rendering of a byte list, two characters a byte. -/
def bytesToHex (bs : List Nat) : String :=
  ⟨bs.flatMap (fun b => [hexChar (b / 16), hexChar (b % 16)])⟩

/-- Lowercase hexadecimal MD5 digest of a byte list: the model of
`hashlib.md5(data).hexdigest()`. -/
def md5hex (ms : List Nat) : String := bytesToHex (md5bytes ms)

/-! ## UTF-8 (model of Python `str.encode("utf-8")`) -/

/-- UTF-8 encoding of one code point, as a list of bytes. -/
def utf8Char (c : Char) : List Nat :=
  let n := c.toNat
  if n < 0x80 then [n]
  else if n < 0x800 then
    [0xC0 ||| (n >>> 6), 0x80 ||| (n &&& 0x3F)]
  else if n < 0x10000 then
    [0xE0 ||| (n >>> 12), 0x80 ||| ((n >>> 6) &&& 0x3F), 0x80 ||| (n &&& 0x3F)]
  else
    [0xF0 ||| (n >>> 18), 0x80 ||| ((n >>> 12) &&& 0x3F),
     0x80 ||| ((n >>> 6) &&& 0x3F), 0x80 ||| (n &&& 0x3F)]

/-- UTF-8 encoding of a string, the model of `s.encode("utf-8")`. -/
def utf8Encode (s : String) : List Nat := s.data.flatMap utf8Char

example : md5hex (utf8Encode "abc") = "900150983cd24fb0d6963f7d28e17f72" := by rfl

example : md5hex (utf8Encode "") = "d41d8cd98f00b204e9800998ecf8427e" := by rfl

/-! ## Model of Python `urllib.parse.urlparse(url).path`

The client only ever uses the `.path` attribute of `urlparse`'s result, so
only the path computation is modelled: scheme removal, netloc removal,
fragment and query truncation (as in CPython `urlsplit`), then parameter
splitting on the last segment (as in CPython `urlparse`/`_splitparams`). -/

def isSchemeChar (c : Char) : Bool :=
  c.isAlphanum || c = '+' || c = '-' || c = '.'

/-- Remove a leading `scheme:` when the text before the first colon is a
valid scheme (nonempty, leading ASCII letter, scheme characters after). -/
def splitScheme (l : List Char) : List Char :=
  let pre := l.takeWhile (· ≠ ':')
  match l.dropWhile (· ≠ ':') with
  | [] => l
  | _ :: rest =>
    match pre with
    | [] => l
    | c0 :: cs => if c0.isAlpha && cs.all isSchemeChar then rest else l

/-- Remove a leading `//netloc`: everything up to the next `/`, `?` or `#`. -/
def splitNetloc (l : List Char) : List Char :=
  match l with
  | '/' :: '/' :: rest => rest.dropWhile (fun c => !(c = '/' || c = '?' || c = '#'))
  | _ => l

/-- Split `;parameters` off the last path segment, as CPython
`_splitparams` does inside `urlparse`. -/
def splitParams (l : List Char) : List Char :=
  if l.contains '/' then
    let rev := l.reverse
    let lastSeg := (rev.takeWhile (· ≠ '/')).reverse
    if lastSeg.contains ';' then
      (rev.dropWhile (· ≠ '/')).reverse ++ lastSeg.takeWhile (· ≠ ';')
    else l
  else if l.contains ';' then l.takeWhile (· ≠ ';') else l

/-- The path component of a URL: model of `urlparse(url).path`. -/
def urlparsePath (s : String) : String :=
  let l := splitNetloc (splitScheme s.data)
  ⟨splitParams ((l.takeWhile (· ≠ '#')).takeWhile (· ≠ '?'))⟩

example : urlparsePath "https://example.com/play/mygame" = "/play/mygame" := by rfl

example : urlparsePath "https://example.com/play/mygame?x=1#top" = "/play/mygame" := by rfl

/-! ## JSON values and HTTP requests

Python `dict` literals keep insertion order, so a JSON object is an
association list.  The client posts `dumps(data)` as the request body; the
body is modelled as the JSON value itself. -/

inductive Json where
  | null : Json
  | bool : Bool → Json
  | num : Int → Json
  | str : String → Json
  | arr : List Json → Json
  | obj : List (String × Json) → Json

/-- Value of a key in a JSON object, `none` for absent keys or non-objects. -/
def Json.get? : Json → String → Option Json
  | .obj fields, k => fields.lookup k
  | _, _ => none

/-- Value at a key path in nested JSON objects. -/
def Json.getPath? (j : Json) : List String → Option Json
  | [] => some j
  | k :: ks => match j.get? k with
    | some v => v.getPath? ks
    | none => none

/-- One HTTP POST request as the client assembles it: target URL, header
list, and the JSON body it serialises with `dumps`. -/
structure Request where
  url : String
  headers : List (String × String)
  body : Json

def Request.header? (r : Request) (k : String) : Option String :=
  r.headers.lookup k

/-- Errors an operation can surface: a non-2xx HTTP status
(`httpx.HTTPStatusError` from `raise_for_status`), a missing dictionary key
(Python `KeyError`), subscripting a non-dictionary (Python `TypeError`), or
a body that fails to parse as JSON (`response.json()` failing). -/
inductive ApiError where
  | httpStatus : Nat → ApiError
  | keyError : String → ApiError
  | typeError : ApiError
  | jsonDecode : ApiError
deriving DecidableEq, Repr

/-- Model of Python `d[k]` on a JSON value: `KeyError` when the key is
absent from a dictionary, `TypeError` when the value is not a dictionary. -/
def pyGetItem (j : Json) (k : String) : Except ApiError Json :=
  match j with
  | .obj fields =>
    match fields.lookup k with
    | some v => .ok v
    | none => .error (.keyError k)
  | _ => .error .typeError

/-- An HTTP response as the client observes it: the status code and the
outcome of parsing the body as JSON (`none` when the body is not JSON). -/
structure HttpResponse where
  status : Nat
  jsonBody : Option Json

/-- Model of `response.raise_for_status()` followed by `response.json()`:
`raise_for_status` raises for every non-2xx status, and only when it does
not raise is the body parsed as JSON. -/
def raiseForStatusThenJson (resp : HttpResponse) : Except ApiError Json :=
  if 200 ≤ resp.status && resp.status < 300 then
    match resp.jsonBody with
    | some j => .ok j
    | none => .error .jsonDecode
  else .error (.httpStatus resp.status)

/-! ## The client -/

/-- The constant `GameeAPIClient.BASE_URL`. -/
def BASE_URL : String := "https://api.gamee.com/"

/-- The constant `GameeAPIClient.TIMEOUT`. -/
def TIMEOUT : Nat := 30

/-- The constant `GameeAPIClient.SEED`. -/
def SEED : String := "crmjbjm3lczhlgnek9uaxz2l9svlfjw14npauhen"

/-- The constant `GameeAPIClient.USER_AGENT`. -/
def USER_AGENT : String :=
  "Mozilla/5.0 (Linux; Android 10; K) AppleWebKit/537.36 (KHTML, like Gecko) Chrome/124.0.0.0 Mobile Safari/537.36"

/-- Client state after `__init__`: base URL, timeout, and the installation
identifier `self._uuid`.  All three fields are written only by `__init__`
and never reassigned, so operations are pure functions of this structure. -/
structure GameeAPIClient where
  base_url : String
  timeout : Nat
  _uuid : String
deriving DecidableEq, Repr

/-- Model of `GameeAPIClient.__init__`: `base_url` and `timeout` default to
the class constants, and `self._uuid` is set to the fresh random string
`str(uuid4())`, passed here as the explicit argument `fresh_uuid`. -/
def mkGameeAPIClient (fresh_uuid : String) (base_url : String := BASE_URL)
    (timeout : Nat := TIMEOUT) : GameeAPIClient :=
  { base_url := base_url, timeout := timeout, _uuid := fresh_uuid }

/-- The f-string `f"{score}:{play_time}:{game_url_path}::{self._uuid}:{self.SEED}"`
hashed by `_generate_checksum`. -/
def checksumInput (c : GameeAPIClient) (score play_time : Int)
    (game_url_path : String) : String :=
  toString score ++ ":" ++ toString play_time ++ ":" ++ game_url_path ++ "::" ++
    c._uuid ++ ":" ++ SEED

/-- Model of `GameeAPIClient._generate_checksum`. -/
def generateChecksum (c : GameeAPIClient) (score play_time : Int)
    (game_url_path : String) : String :=
  md5hex (utf8Encode (checksumInput c score play_time game_url_path))

/-- Headers built by the unauthenticated operations
(`auth_user`, `get_web_gameplay_details`). -/
def plainHeaders (c : GameeAPIClient) : List (String × String) :=
  [("User-Agent", USER_AGENT), ("X-Install-Uuid", c._uuid)]

/-- Headers built by the authenticated operations, with the
`f"Bearer {auth_token}"` value. -/
def authHeaders (c : GameeAPIClient) (auth_token : String) : List (String × String) :=
  [("User-Agent", USER_AGENT),
   ("Authorization", "Bearer " ++ auth_token),
   ("X-Install-Uuid", c._uuid)]

/-- The request `auth_user` posts. -/
def authUserRequest (c : GameeAPIClient) (game_url : String) : Request :=
  { url := c.base_url
    headers := plainHeaders c
    body := .obj [
      ("jsonrpc", .str "2.0"),
      ("id", .str "user.authentication.botLogin"),
      ("method", .str "user.authentication.botLogin"),
      ("params", .obj [
        ("botGameUrl", .str (urlparsePath game_url)),
        ("botName", .str "telegram"),
        ("botUserIdentifier", .null)])] }

/-- The request `get_web_gameplay_details` posts. -/
def getWebGameplayDetailsRequest (c : GameeAPIClient) (game_url : String) : Request :=
  { url := c.base_url
    headers := plainHeaders c
    body := .obj [
      ("jsonrpc", .str "2.0"),
      ("id", .str "game.getWebGameplayDetails"),
      ("method", .str "game.getWebGameplayDetails"),
      ("params", .obj [
        ("gameUrl", .str (urlparsePath game_url))])] }

/-- The request `get_geo_block_status` posts. -/
def getGeoBlockStatusRequest (c : GameeAPIClient) (auth_token : String) : Request :=
  { url := c.base_url
    headers := authHeaders c auth_token
    body := .obj [
      ("jsonrpc", .str "2.0"),
      ("id", .str "user.getGeoBlockStatus"),
      ("method", .str "user.getGeoBlockStatus"),
      ("params", .obj [])] }

/-- The request `get_web_surrounding_by_game` posts: note `gameUrl` is the
input URL itself, not its path. -/
def getWebSurroundingByGameRequest (c : GameeAPIClient) (auth_token game_url : String) :
    Request :=
  { url := c.base_url
    headers := authHeaders c auth_token
    body := .obj [
      ("jsonrpc", .str "2.0"),
      ("id", .str "leaderboards.getWebSurroundingByGame"),
      ("method", .str "leaderboards.getWebSurroundingByGame"),
      ("params", .obj [
        ("gameUrl", .str game_url)])] }

/-- Model of Python `random.randint(a, b)` (both ends inclusive), drawing
from an external uniform random source `r`. -/
def randint (a b : Nat) (r : Nat) : Nat := a + r % (b + 1 - a)

/-- The submission request `save_web_gameplay` posts, given the `game_id`
and `release_number` values already extracted from the details response, the
`created_time` string produced by `strftime`, and the random draw `r` that
feeds `randint(1, 500)`.  Field order follows the Python dict literal. -/
def saveWebGameplayRequest (c : GameeAPIClient) (auth_token game_url : String)
    (score play_time : Int) (game_id release_number : Json)
    (created_time : String) (r : Nat) : Request :=
  { url := c.base_url
    headers := authHeaders c auth_token
    body := .obj [
      ("jsonrpc", .str "2.0"),
      ("id", .str "game.saveWebGameplay"),
      ("method", .str "game.saveWebGameplay"),
      ("params", .obj [
        ("gameplayData", .obj [
          ("gameId", game_id),
          ("score", .num score),
          ("playTime", .num play_time),
          ("gameUrl", .str (urlparsePath game_url)),
          ("releaseNumber", release_number),
          ("createdTime", .str created_time),
          ("metadata", .obj [
            ("gameplayId", .num (randint 1 500 r))]),
          ("isSaveState", .bool false),
          ("gameStateData", .null),
          ("gameplayOrigin", .str "game"),
          ("replayData", .null),
          ("replayVariant", .null),
          ("replayDataChecksum", .null),
          ("uuid", .str c._uuid),
          ("checksum", .str (generateChecksum c score play_time (urlparsePath game_url)))])])] }

/-! ## The operations

Each operation is a pure function of the client, its arguments, and the
HTTP responses the server would return, yielding the list of requests the
operation sends (in order) and its outcome. -/

/-- Model of `auth_user`. -/
def auth_user (c : GameeAPIClient) (game_url : String) (resp : HttpResponse) :
    List Request × Except ApiError Json :=
  ([authUserRequest c game_url], raiseForStatusThenJson resp)

/-- Model of `get_web_gameplay_details`. -/
def get_web_gameplay_details (c : GameeAPIClient) (game_url : String)
    (resp : HttpResponse) : List Request × Except ApiError Json :=
  ([getWebGameplayDetailsRequest c game_url], raiseForStatusThenJson resp)

/-- Model of `get_geo_block_status`. -/
def get_geo_block_status (c : GameeAPIClient) (auth_token : String)
    (resp : HttpResponse) : List Request × Except ApiError Json :=
  ([getGeoBlockStatusRequest c auth_token], raiseForStatusThenJson resp)

/-- Model of `get_web_surrounding_by_game`. -/
def get_web_surrounding_by_game (c : GameeAPIClient) (auth_token game_url : String)
    (resp : HttpResponse) : List Request × Except ApiError Json :=
  ([getWebSurroundingByGameRequest c auth_token game_url], raiseForStatusThenJson resp)

/-- The subscript chain `details["result"]["game"]["id"]` followed by
`details["result"]["game"]["release"]["number"]`, in the evaluation order of
the Python dict literal (the `gameId` value is evaluated first). -/
def lookupGameIds (details : Json) : Except ApiError (Json × Json) := do
  let result ← pyGetItem details "result"
  let game ← pyGetItem result "game"
  let gid ← pyGetItem game "id"
  let result2 ← pyGetItem details "result"
  let game2 ← pyGetItem result2 "game"
  let release ← pyGetItem game2 "release"
  let rel ← pyGetItem release "number"
  pure (gid, rel)

/-- Model of `save_web_gameplay`: first the details call; if its response
clears `raise_for_status` and parses, the submission body is built (raising
on missing keys before any second request exists) and the second POST is
sent.  `details_resp`/`submit_resp` are the two servers' answers,
`created_time` the `strftime` output, `r` the random source for `randint`. -/
def save_web_gameplay (c : GameeAPIClient) (auth_token game_url : String)
    (score play_time : Int) (details_resp submit_resp : HttpResponse)
    (created_time : String) (r : Nat) : List Request × Except ApiError Json :=
  let req1 := getWebGameplayDetailsRequest c game_url
  match raiseForStatusThenJson details_resp with
  | .error e => ([req1], .error e)
  | .ok details =>
    match lookupGameIds details with
    | .error e => ([req1], .error e)
    | .ok (gid, rel) =>
      ([req1, saveWebGameplayRequest c auth_token game_url score play_time
          gid rel created_time r],
       raiseForStatusThenJson submit_resp)

/-- A lowercase hexadecimal digit: `0`-`9` or `a`-`f`. -/
def isLowerHexDigit (ch : Char) : Bool :=
  ch.isDigit || ('a' ≤ ch && ch ≤ 'f')

/-- A sample client used to instantiate universally quantified statements. -/
def exampleClient : GameeAPIClient := mkGameeAPIClient "u-1"

/-- A sample well-formed details-response body with `result.game.id = 7`
and `result.game.release.number = 3`. -/
def exampleDetails : Json :=
  .obj [("result", .obj [("game", .obj [
    ("id", .num 7),
    ("release", .obj [("number", .num 3)])])])]

/-! ## Helper lemmas -/

theorem md5bytes_length (ms : List Nat) : (md5bytes ms).length = 16 := by
  simp [md5bytes, wordLEBytes]

theorem wordLEBytes_lt (w : Nat) : ∀ b ∈ wordLEBytes w, b < 256 := by
  intro b hb
  simp only [wordLEBytes, List.mem_cons, List.not_mem_nil, or_false] at hb
  rcases hb with h | h | h | h <;> subst h <;> omega

theorem md5bytes_lt (ms : List Nat) : ∀ b ∈ md5bytes ms, b < 256 := by
  intro b hb
  simp only [md5bytes, List.mem_append] at hb
  rcases hb with ((h | h) | h) | h <;> exact wordLEBytes_lt _ b h

theorem flatMap_pair_length {α : Type} (f g : α → Char) (l : List α) :
    (l.flatMap fun b => [f b, g b]).length = 2 * l.length := by
  induction l with
  | nil => rfl
  | cons x xs ih => simp [List.flatMap_cons, ih]; omega

theorem hexChar_lower_hex : ∀ n, n < 16 → isLowerHexDigit (hexChar n) = true := by
  decide

theorem md5hex_length (ms : List Nat) : (md5hex ms).length = 32 := by
  show (bytesToHex (md5bytes ms)).length = 32
  show ((md5bytes ms).flatMap fun b => [hexChar (b / 16), hexChar (b % 16)]).length = 32
  rw [flatMap_pair_length, md5bytes_length]

theorem md5hex_lower_hex (ms : List Nat) :
    (md5hex ms).data.all isLowerHexDigit = true := by
  rw [List.all_eq_true]
  intro ch hch
  have hch2 : ch ∈ (md5bytes ms).flatMap fun b => [hexChar (b / 16), hexChar (b % 16)] := hch
  rw [List.mem_flatMap] at hch2
  obtain ⟨b, hb, hin⟩ := hch2
  have hlt := md5bytes_lt ms b hb
  rcases List.mem_cons.mp hin with h | h
  · exact h ▸ hexChar_lower_hex (b / 16) (by omega)
  · rcases List.mem_cons.mp h with h2 | h2
    · exact h2 ▸ hexChar_lower_hex (b % 16) (by omega)
    · cases h2

theorem pyGetItem_eq_ok {j : Json} {k : String} {v : Json} :
    pyGetItem j k = .ok v ↔ j.get? k = some v := by
  cases j <;> simp [pyGetItem, Json.get?]
  case obj fields => cases fields.lookup k <;> simp

theorem getPath?_cons {j : Json} {k : String} {ks : List String} {v : Json} :
    j.getPath? (k :: ks) = some v ↔ ∃ w, j.get? k = some w ∧ w.getPath? ks = some v := by
  cases h : j.get? k <;> simp [Json.getPath?, h]

theorem lookupGameIds_ok {d gid rel : Json}
    (hg : d.getPath? ["result", "game", "id"] = some gid)
    (hr : d.getPath? ["result", "game", "release", "number"] = some rel) :
    lookupGameIds d = .ok (gid, rel) := by
  obtain ⟨r1, h1, hg1⟩ := getPath?_cons.mp hg
  obtain ⟨g1, h2, hg2⟩ := getPath?_cons.mp hg1
  have h3 : g1.get? "id" = some gid := by
    obtain ⟨w, hw, hw2⟩ := getPath?_cons.mp hg2
    cases hw2; exact hw
  obtain ⟨r1x, h1x, hr1⟩ := getPath?_cons.mp hr
  rw [h1] at h1x; cases h1x
  obtain ⟨g1x, h2x, hr2⟩ := getPath?_cons.mp hr1
  rw [h2] at h2x; cases h2x
  obtain ⟨rel1, h4, hr3⟩ := getPath?_cons.mp hr2
  have h5 : rel1.get? "number" = some rel := by
    obtain ⟨w, hw, hw2⟩ := getPath?_cons.mp hr3
    cases hw2; exact hw
  simp [lookupGameIds, Bind.bind, Except.bind,
    pyGetItem_eq_ok.mpr h1, pyGetItem_eq_ok.mpr h2, pyGetItem_eq_ok.mpr h3,
    pyGetItem_eq_ok.mpr h4, pyGetItem_eq_ok.mpr h5, pure, Except.pure]

theorem raiseForStatus_non2xx (status : Nat) (b : Option Json)
    (h : status < 200 ∨ 300 ≤ status) :
    raiseForStatusThenJson ⟨status, b⟩ = .error (.httpStatus status) := by
  simp only [raiseForStatusThenJson]
  split
  · next hc =>
    exfalso
    simp only [Bool.and_eq_true, decide_eq_true_eq] at hc
    omega
  · rfl

/-! ## Claim theorems -/

set_option maxRecDepth 100000 in
/-- C1: for every integer score, integer play_time and string game_url_path,
`_generate_checksum` returns the lowercase hexadecimal MD5 digest of the
UTF-8 encoding of the string `score:play_time:game_url_path::installation_id:seed`
(double colon between the path and the installation identifier), where the
seed is the fixed constant; in particular for score 1500, play_time 42, path
`/play/mygame` and installation id `abc-123` the hashed input string is
exactly `1500:42:/play/mygame::abc-123:` followed by the seed (and the
resulting digest is the MD5 digest of that string). -/
theorem C1_checksum_format :
    (∀ (c : GameeAPIClient) (score play_time : Int) (game_url_path : String),
      generateChecksum c score play_time game_url_path =
        md5hex (utf8Encode (toString score ++ ":" ++ toString play_time ++ ":" ++
          game_url_path ++ "::" ++ c._uuid ++ ":" ++ SEED))) ∧
    SEED = "crmjbjm3lczhlgnek9uaxz2l9svlfjw14npauhen" ∧
    checksumInput (mkGameeAPIClient "abc-123") 1500 42 "/play/mygame" =
      "1500:42:/play/mygame::abc-123:" ++ SEED ∧
    generateChecksum (mkGameeAPIClient "abc-123") 1500 42 "/play/mygame" =
      "b6ce9dd808e83e1688adb0f54a736008" :=
  ⟨fun _ _ _ _ => rfl, rfl, by rfl, by rfl⟩

/-- C3: the checksum function is pure and deterministic — two calls with
identical arguments on the same client yield an identical digest — and the
digest is a string of exactly 32 lowercase hexadecimal characters. -/
theorem C3_checksum_deterministic_hex :
    ∀ (c : GameeAPIClient) (score play_time : Int) (game_url_path : String),
      generateChecksum c score play_time game_url_path =
        generateChecksum c score play_time game_url_path ∧
      (generateChecksum c score play_time game_url_path).length = 32 ∧
      (generateChecksum c score play_time game_url_path).data.all isLowerHexDigit = true :=
  fun _ _ _ _ => ⟨rfl, md5hex_length _, md5hex_lower_hex _⟩

/-- C2: `save_web_gameplay` sends exactly two HTTP POSTs in order — first
the `game.getWebGameplayDetails` request for the given URL, then the
`game.saveWebGameplay` request whose `gameplayData` carries `gameId` equal
to `result.game.id` and `releaseNumber` equal to `result.game.release.number`
from the first response's body, `checksum` equal to the client's checksum of
(score, play_time, path of the URL), and `gameUrl` equal to that path. -/
theorem C2_save_two_posts (c : GameeAPIClient)
    (auth_token game_url created_time : String) (score play_time : Int)
    (details submit : HttpResponse) (r : Nat) (d gid rel : Json)
    (hd : raiseForStatusThenJson details = .ok d)
    (hg : d.getPath? ["result", "game", "id"] = some gid)
    (hr : d.getPath? ["result", "game", "release", "number"] = some rel) :
    (save_web_gameplay c auth_token game_url score play_time details submit
        created_time r).1 =
      [getWebGameplayDetailsRequest c game_url,
       saveWebGameplayRequest c auth_token game_url score play_time gid rel
         created_time r] ∧
    (saveWebGameplayRequest c auth_token game_url score play_time gid rel
        created_time r).body.getPath? ["params", "gameplayData", "gameId"] = some gid ∧
    (saveWebGameplayRequest c auth_token game_url score play_time gid rel
        created_time r).body.getPath? ["params", "gameplayData", "releaseNumber"] = some rel ∧
    (saveWebGameplayRequest c auth_token game_url score play_time gid rel
        created_time r).body.getPath? ["params", "gameplayData", "checksum"] =
      some (.str (generateChecksum c score play_time (urlparsePath game_url))) ∧
    (saveWebGameplayRequest c auth_token game_url score play_time gid rel
        created_time r).body.getPath? ["params", "gameplayData", "gameUrl"] =
      some (.str (urlparsePath game_url)) := by
  have hl := lookupGameIds_ok hg hr
  refine ⟨?_, rfl, rfl, rfl, rfl⟩
  simp [save_web_gameplay, hd, hl]

theorem C2_save_two_posts_witness :
    raiseForStatusThenJson ⟨200, some exampleDetails⟩ = .ok exampleDetails ∧
    exampleDetails.getPath? ["result", "game", "id"] = some (.num 7) ∧
    exampleDetails.getPath? ["result", "game", "release", "number"] = some (.num 3) ∧
    (save_web_gameplay exampleClient "tok" "https://example.com/play/mygame" 10 5
        ⟨200, some exampleDetails⟩ ⟨200, some .null⟩ "2026-01-01T00:00:00+0000" 0).1 =
      [getWebGameplayDetailsRequest exampleClient "https://example.com/play/mygame",
       saveWebGameplayRequest exampleClient "tok" "https://example.com/play/mygame" 10 5
         (.num 7) (.num 3) "2026-01-01T00:00:00+0000" 0] :=
  ⟨rfl, rfl, rfl,
    (C2_save_two_posts exampleClient "tok" "https://example.com/play/mygame"
      "2026-01-01T00:00:00+0000" 10 5 ⟨200, some exampleDetails⟩ ⟨200, some .null⟩ 0
      exampleDetails (.num 7) (.num 3) rfl rfl rfl).1⟩

/-- C4: the installation identifier is fixed at construction: on a client
built with fresh uuid `u`, every request of every operation carries
`X-Install-Uuid: u`, and in `save_web_gameplay` the submission record's
`uuid` field is `u` and the checksum is computed over `u`; no operation
returns a modified client, the operations being pure functions of the
construction-time state. -/
theorem C4_install_uuid_stable :
    ∀ (u base : String) (t : Nat) (auth_token game_url created_time : String)
      (score play_time : Int) (resp details submit : HttpResponse)
      (game_id release_number : Json) (r : Nat),
      (mkGameeAPIClient u base t)._uuid = u ∧
      (auth_user (mkGameeAPIClient u base t) game_url resp).1.map
        (fun req => req.header? "X-Install-Uuid") = [some u] ∧
      (get_web_gameplay_details (mkGameeAPIClient u base t) game_url resp).1.map
        (fun req => req.header? "X-Install-Uuid") = [some u] ∧
      (get_geo_block_status (mkGameeAPIClient u base t) auth_token resp).1.map
        (fun req => req.header? "X-Install-Uuid") = [some u] ∧
      (get_web_surrounding_by_game (mkGameeAPIClient u base t) auth_token game_url resp).1.map
        (fun req => req.header? "X-Install-Uuid") = [some u] ∧
      (save_web_gameplay (mkGameeAPIClient u base t) auth_token game_url score play_time
          details submit created_time r).1.map
        (fun req => req.header? "X-Install-Uuid") =
        List.replicate (save_web_gameplay (mkGameeAPIClient u base t) auth_token game_url
          score play_time details submit created_time r).1.length (some u) ∧
      (saveWebGameplayRequest (mkGameeAPIClient u base t) auth_token game_url score
          play_time game_id release_number created_time r).body.getPath?
        ["params", "gameplayData", "uuid"] = some (.str u) ∧
      (saveWebGameplayRequest (mkGameeAPIClient u base t) auth_token game_url score
          play_time game_id release_number created_time r).body.getPath?
        ["params", "gameplayData", "checksum"] =
        some (.str (md5hex (utf8Encode (toString score ++ ":" ++ toString play_time ++
          ":" ++ urlparsePath game_url ++ "::" ++ u ++ ":" ++ SEED)))) := by
  intro u base t auth_token game_url created_time score play_time resp details submit
    game_id release_number r
  refine ⟨rfl, rfl, rfl, rfl, rfl, ?_, rfl, rfl⟩
  cases hdet : raiseForStatusThenJson details with
  | error e => simp only [save_web_gameplay, hdet]; rfl
  | ok d =>
    cases hl : lookupGameIds d with
    | error e => simp only [save_web_gameplay, hdet, hl]; rfl
    | ok p =>
      obtain ⟨gid, rel⟩ := p
      simp only [save_web_gameplay, hdet, hl]; rfl

/-- C5: every operation's request body is a JSON-RPC envelope: `jsonrpc` is
the literal string `2.0`, `id` is a string equal to the `method` field, the
`method` is the operation's dotted name, and `params` is an object. -/
theorem C5_jsonrpc_envelope :
    ∀ (c : GameeAPIClient) (auth_token game_url created_time : String)
      (score play_time : Int) (gid rel : Json) (r : Nat),
      ((authUserRequest c game_url).body.get? "jsonrpc" = some (.str "2.0") ∧
       (authUserRequest c game_url).body.get? "id" =
         some (.str "user.authentication.botLogin") ∧
       (authUserRequest c game_url).body.get? "method" =
         some (.str "user.authentication.botLogin") ∧
       ∃ fields, (authUserRequest c game_url).body.get? "params" = some (.obj fields)) ∧
      ((getWebGameplayDetailsRequest c game_url).body.get? "jsonrpc" = some (.str "2.0") ∧
       (getWebGameplayDetailsRequest c game_url).body.get? "id" =
         some (.str "game.getWebGameplayDetails") ∧
       (getWebGameplayDetailsRequest c game_url).body.get? "method" =
         some (.str "game.getWebGameplayDetails") ∧
       ∃ fields, (getWebGameplayDetailsRequest c game_url).body.get? "params" =
         some (.obj fields)) ∧
      ((getGeoBlockStatusRequest c auth_token).body.get? "jsonrpc" = some (.str "2.0") ∧
       (getGeoBlockStatusRequest c auth_token).body.get? "id" =
         some (.str "user.getGeoBlockStatus") ∧
       (getGeoBlockStatusRequest c auth_token).body.get? "method" =
         some (.str "user.getGeoBlockStatus") ∧
       ∃ fields, (getGeoBlockStatusRequest c auth_token).body.get? "params" =
         some (.obj fields)) ∧
      ((getWebSurroundingByGameRequest c auth_token game_url).body.get? "jsonrpc" =
         some (.str "2.0") ∧
       (getWebSurroundingByGameRequest c auth_token game_url).body.get? "id" =
         some (.str "leaderboards.getWebSurroundingByGame") ∧
       (getWebSurroundingByGameRequest c auth_token game_url).body.get? "method" =
         some (.str "leaderboards.getWebSurroundingByGame") ∧
       ∃ fields, (getWebSurroundingByGameRequest c auth_token game_url).body.get? "params" =
         some (.obj fields)) ∧
      ((saveWebGameplayRequest c auth_token game_url score play_time gid rel
          created_time r).body.get? "jsonrpc" = some (.str "2.0") ∧
       (saveWebGameplayRequest c auth_token game_url score play_time gid rel
          created_time r).body.get? "id" = some (.str "game.saveWebGameplay") ∧
       (saveWebGameplayRequest c auth_token game_url score play_time gid rel
          created_time r).body.get? "method" = some (.str "game.saveWebGameplay") ∧
       ∃ fields, (saveWebGameplayRequest c auth_token game_url score play_time gid rel
          created_time r).body.get? "params" = some (.obj fields)) :=
  fun _ _ _ _ _ _ _ _ _ =>
    ⟨⟨rfl, rfl, rfl, _, rfl⟩, ⟨rfl, rfl, rfl, _, rfl⟩, ⟨rfl, rfl, rfl, _, rfl⟩,
     ⟨rfl, rfl, rfl, _, rfl⟩, ⟨rfl, rfl, rfl, _, rfl⟩⟩

/-- C6: the leaderboard-surrounding operation sends the full input URL
verbatim as `gameUrl`, while `auth_user`, `get_web_gameplay_details` and the
submission of `save_web_gameplay` send only the path component of the URL. -/
theorem C6_full_url_vs_path :
    ∀ (c : GameeAPIClient) (auth_token game_url created_time : String)
      (score play_time : Int) (gid rel : Json) (r : Nat),
      (getWebSurroundingByGameRequest c auth_token game_url).body.getPath?
        ["params", "gameUrl"] = some (.str game_url) ∧
      (authUserRequest c game_url).body.getPath?
        ["params", "botGameUrl"] = some (.str (urlparsePath game_url)) ∧
      (getWebGameplayDetailsRequest c game_url).body.getPath?
        ["params", "gameUrl"] = some (.str (urlparsePath game_url)) ∧
      (saveWebGameplayRequest c auth_token game_url score play_time gid rel
          created_time r).body.getPath?
        ["params", "gameplayData", "gameUrl"] = some (.str (urlparsePath game_url)) :=
  fun _ _ _ _ _ _ _ _ _ => ⟨rfl, rfl, rfl, rfl⟩

/-- C7: a non-2xx HTTP status makes every operation fail with an HTTP error
carrying that status; the outcome is the same whatever the body's JSON-parse
outcome is (no JSON parsing of the body is attempted), and a failing details
call inside `save_web_gameplay` stops the flow after one request. -/
theorem C7_non2xx_http_error (c : GameeAPIClient)
    (auth_token game_url created_time : String) (score play_time : Int)
    (status : Nat) (b b2 : Option Json) (submit : HttpResponse) (r : Nat)
    (h : status < 200 ∨ 300 ≤ status) :
    raiseForStatusThenJson ⟨status, b⟩ = .error (.httpStatus status) ∧
    raiseForStatusThenJson ⟨status, b⟩ = raiseForStatusThenJson ⟨status, b2⟩ ∧
    (auth_user c game_url ⟨status, b⟩).2 = .error (.httpStatus status) ∧
    (get_web_gameplay_details c game_url ⟨status, b⟩).2 = .error (.httpStatus status) ∧
    (get_geo_block_status c auth_token ⟨status, b⟩).2 = .error (.httpStatus status) ∧
    (get_web_surrounding_by_game c auth_token game_url ⟨status, b⟩).2 =
      .error (.httpStatus status) ∧
    (save_web_gameplay c auth_token game_url score play_time ⟨status, b⟩ submit
        created_time r).2 = .error (.httpStatus status) ∧
    (save_web_gameplay c auth_token game_url score play_time ⟨status, b⟩ submit
        created_time r).1 = [getWebGameplayDetailsRequest c game_url] ∧
    (∀ (details : HttpResponse) (d gid rel : Json),
      raiseForStatusThenJson details = .ok d →
      lookupGameIds d = .ok (gid, rel) →
      (save_web_gameplay c auth_token game_url score play_time details ⟨status, b⟩
          created_time r).2 = .error (.httpStatus status)) := by
  have key := raiseForStatus_non2xx status b h
  refine ⟨key, key.trans (raiseForStatus_non2xx status b2 h).symm, key, key, key, key,
    ?_, ?_, ?_⟩
  · simp [save_web_gameplay, key]
  · simp [save_web_gameplay, key]
  · intro details d gid rel hd hl
    simp [save_web_gameplay, hd, hl, key]

theorem C7_non2xx_http_error_witness :
    (404 < 200 ∨ 300 ≤ 404) ∧
    (auth_user exampleClient "https://example.com/play/mygame" ⟨404, none⟩).2 =
      .error (.httpStatus 404) ∧
    (save_web_gameplay exampleClient "tok" "https://example.com/play/mygame" 10 5
        ⟨404, none⟩ ⟨200, some .null⟩ "2026-01-01T00:00:00+0000" 0).1 =
      [getWebGameplayDetailsRequest exampleClient "https://example.com/play/mygame"] :=
  ⟨by decide,
   (C7_non2xx_http_error exampleClient "tok" "https://example.com/play/mygame"
     "2026-01-01T00:00:00+0000" 10 5 404 none (some .null) ⟨200, some .null⟩ 0
     (by decide)).2.2.1,
   (C7_non2xx_http_error exampleClient "tok" "https://example.com/play/mygame"
     "2026-01-01T00:00:00+0000" 10 5 404 none (some .null) ⟨200, some .null⟩ 0
     (by decide)).2.2.2.2.2.2.2.1⟩

/-- C8: every request carries the fixed User-Agent constant and the
installation identifier as `X-Install-Uuid`; the token-taking operations
additionally carry `Authorization: Bearer <token>`, and the token-free
operations carry no Authorization header. -/
theorem C8_headers :
    ∀ (c : GameeAPIClient) (auth_token game_url created_time : String)
      (score play_time : Int) (gid rel : Json) (r : Nat),
      ((authUserRequest c game_url).header? "User-Agent" = some USER_AGENT ∧
       (authUserRequest c game_url).header? "X-Install-Uuid" = some c._uuid ∧
       (authUserRequest c game_url).header? "Authorization" = none) ∧
      ((getWebGameplayDetailsRequest c game_url).header? "User-Agent" = some USER_AGENT ∧
       (getWebGameplayDetailsRequest c game_url).header? "X-Install-Uuid" = some c._uuid ∧
       (getWebGameplayDetailsRequest c game_url).header? "Authorization" = none) ∧
      ((getGeoBlockStatusRequest c auth_token).header? "User-Agent" = some USER_AGENT ∧
       (getGeoBlockStatusRequest c auth_token).header? "X-Install-Uuid" = some c._uuid ∧
       (getGeoBlockStatusRequest c auth_token).header? "Authorization" =
         some ("Bearer " ++ auth_token)) ∧
      ((getWebSurroundingByGameRequest c auth_token game_url).header? "User-Agent" =
         some USER_AGENT ∧
       (getWebSurroundingByGameRequest c auth_token game_url).header? "X-Install-Uuid" =
         some c._uuid ∧
       (getWebSurroundingByGameRequest c auth_token game_url).header? "Authorization" =
         some ("Bearer " ++ auth_token)) ∧
      ((saveWebGameplayRequest c auth_token game_url score play_time gid rel
          created_time r).header? "User-Agent" = some USER_AGENT ∧
       (saveWebGameplayRequest c auth_token game_url score play_time gid rel
          created_time r).header? "X-Install-Uuid" = some c._uuid ∧
       (saveWebGameplayRequest c auth_token game_url score play_time gid rel
          created_time r).header? "Authorization" = some ("Bearer " ++ auth_token)) :=
  fun _ _ _ _ _ _ _ _ _ =>
    ⟨⟨rfl, rfl, rfl⟩, ⟨rfl, rfl, rfl⟩, ⟨rfl, rfl, rfl⟩, ⟨rfl, rfl, rfl⟩, ⟨rfl, rfl, rfl⟩⟩

/-- C9: the submission record's `metadata.gameplayId` is `randint(1, 500)`:
its value always lies in [1, 500], and the draw is uniform — every value in
[1, 500] is hit by exactly one residue of the underlying random source. -/
theorem C9_gameplay_id_range :
    ∀ (c : GameeAPIClient) (auth_token game_url created_time : String)
      (score play_time : Int) (gid rel : Json) (r : Nat),
      (saveWebGameplayRequest c auth_token game_url score play_time gid rel
          created_time r).body.getPath?
        ["params", "gameplayData", "metadata", "gameplayId"] =
        some (.num (randint 1 500 r)) ∧
      1 ≤ randint 1 500 r ∧ randint 1 500 r ≤ 500 ∧
      (∀ v : Fin 500, ∃! u : Fin 500, randint 1 500 u.val = v.val + 1) := by
  intro c auth_token game_url created_time score play_time gid rel r
  refine ⟨rfl, by simp only [randint]; omega, by simp only [randint]; omega, ?_⟩
  intro v
  refine ⟨v, ?_, ?_⟩
  · simp only [randint]
    omega
  · intro u hu
    simp only [randint] at hu
    have h1 : u.val < 500 := u.isLt
    have h2 : v.val < 500 := v.isLt
    apply Fin.ext
    omega

/-- C10: when the details response inside `save_web_gameplay` is 2xx but its
JSON body lacks one of the required keys, the flow fails with a key-lookup
error (not an HTTP error) and the second HTTP POST is never issued. -/
theorem C10_missing_key_stops_flow (c : GameeAPIClient)
    (auth_token game_url created_time : String) (score play_time : Int)
    (details submit : HttpResponse) (r : Nat) (d : Json) (k : String)
    (hd : raiseForStatusThenJson details = .ok d)
    (hk : lookupGameIds d = .error (.keyError k)) :
    (save_web_gameplay c auth_token game_url score play_time details submit
        created_time r).1 = [getWebGameplayDetailsRequest c game_url] ∧
    (save_web_gameplay c auth_token game_url score play_time details submit
        created_time r).2 = .error (.keyError k) ∧
    (∀ st : Nat, ApiError.keyError k ≠ ApiError.httpStatus st) := by
  refine ⟨?_, ?_, fun st h => ApiError.noConfusion h⟩
  · simp [save_web_gameplay, hd, hk]
  · simp [save_web_gameplay, hd, hk]

theorem C10_missing_key_stops_flow_witness :
    raiseForStatusThenJson ⟨200, some (.obj [])⟩ = .ok (.obj []) ∧
    lookupGameIds (.obj []) = .error (.keyError "result") ∧
    (save_web_gameplay exampleClient "tok" "https://example.com/play/mygame" 10 5
        ⟨200, some (.obj [])⟩ ⟨200, some .null⟩ "2026-01-01T00:00:00+0000" 0).1 =
      [getWebGameplayDetailsRequest exampleClient "https://example.com/play/mygame"] :=
  ⟨rfl, rfl,
   (C10_missing_key_stops_flow exampleClient "tok" "https://example.com/play/mygame"
     "2026-01-01T00:00:00+0000" 10 5 ⟨200, some (.obj [])⟩ ⟨200, some .null⟩ 0
     (.obj []) "result" rfl rfl).1⟩

end Gamee
